import Mathlib

/-!
pidgin-chime: the screen-sharing channel controller.

A shallow embedding of `chime-call-screen.c`.

* Bytes (`unsigned char`) are natural numbers; a store into an `unsigned char`
  field reduces modulo 256.  A message or a sample is the list of its bytes.
* GObject handles (websocket connection, appsrc, appsink, cancellable, call)
  are natural numbers; a `NULL` pointer is `none`.
* Every handler is a function from the session record to the new session
  record and the list of calls it made on its collaborators (`Effect`), in
  program order.  Library calls (libsoup, GStreamer, GLib) are recorded as
  effects; callbacks the libraries deliver (handshake result, message, closed,
  new sample, destroy notification) are separate events of `step`, never
  nested inside a handler.
* The mutex `transport_lock` only brackets the sends and is not modelled.
-/

namespace ChimeScreen

/-! ## Data model -/

/-- Modelled from the spec: the enum of session states is declared in
`chime-call-screen.h`, not in `chime-call-screen.c`.  The constructors are the six
states of the specification, named after the `CHIME_SCREEN_STATE_*` values the
source file uses. -/
inductive ChimeScreenState
  | CONNECTING
  | CONNECTED
  | VIEWING
  | SENDING
  | HANGUP
  | FAILED
  deriving DecidableEq, Repr

/-- The header `struct screen_pkt`: four `unsigned char` fields in declaration
order. -/
structure screen_pkt where
  type : Nat
  flag : Nat
  source : Nat
  dest : Nat
  deriving DecidableEq, Repr

/-- The value `sizeof(struct screen_pkt)`. -/
def SIZEOF_SCREEN_PKT : Nat := 4

/-! `enum screen_pkt_type` -/

@[simp] abbrev SCREEN_PKT_TYPE_UNKNOWN : Nat := 0
@[simp] abbrev SCREEN_PKT_TYPE_CAPTURE : Nat := 1
@[simp] abbrev SCREEN_PKT_TYPE_KEY_REQUEST : Nat := 2
@[simp] abbrev SCREEN_PKT_TYPE_PRESENTER_BEGIN : Nat := 3
@[simp] abbrev SCREEN_PKT_TYPE_PRESENTER_END : Nat := 4
@[simp] abbrev SCREEN_PKT_TYPE_STREAM_STOP : Nat := 5
@[simp] abbrev SCREEN_PKT_TYPE_HEARTBEAT_REQUEST : Nat := 6
@[simp] abbrev SCREEN_PKT_TYPE_HEARTBEAT_RESPONSE : Nat := 7
@[simp] abbrev SCREEN_PKT_TYPE_VIEWER_BEGIN : Nat := 8
@[simp] abbrev SCREEN_PKT_TYPE_VIEWER_END : Nat := 9
@[simp] abbrev SCREEN_PKT_TYPE_RR : Nat := 10
@[simp] abbrev SCREEN_PKT_TYPE_PING_REQUEST : Nat := 11
@[simp] abbrev SCREEN_PKT_TYPE_PING_RESPONSE : Nat := 12
@[simp] abbrev SCREEN_PKT_TYPE_PRESENTER_SWITCH : Nat := 16
@[simp] abbrev SCREEN_PKT_TYPE_CONTROL : Nat := 17
@[simp] abbrev SCREEN_PKT_TYPE_PRESENTER_ACK : Nat := 18
@[simp] abbrev SCREEN_PKT_TYPE_PRESENTER_UPLINK_PROBE : Nat := 19
@[simp] abbrev SCREEN_PKT_TYPE_EXIT : Nat := 20

/-! `enum screen_pkt_flag` -/

@[simp] abbrev SCREEN_PKT_FLAG_BROADCAST : Nat := 1
@[simp] abbrev SCREEN_PKT_FLAG_LOCAL : Nat := 2
@[simp] abbrev SCREEN_PKT_FLAG_SYNTHESISED : Nat := 4
@[simp] abbrev SCREEN_PKT_FLAG_UNICAST : Nat := 8

/-- A GStreamer buffer: its bytes in order.  A byte the library leaves
uninitialised (or that this model does not track) is `none`. -/
abbrev GstBuffer := List (Option Nat)

/-- The calls the controller makes on its collaborators. -/
inductive Effect
  /-- The call `soup_websocket_connection_send_binary(ws, bytes, len)`. -/
  | send_binary (ws : Option Nat) (bytes : List Nat)
  /-- The call `gst_app_src_push_buffer(src, buffer)`. -/
  | push_buffer (src : Nat) (buffer : GstBuffer)
  /-- An upstream force-key-unit event sent to the peer of the sink pad of
  the appsink. -/
  | force_key_unit (sink : Nat)
  /-- The call `gst_app_src_set_callbacks`: `installed` is true for
  `screen_appsrc_callbacks`, false for `no_appsrc_callbacks`. -/
  | appsrc_set_callbacks (src : Nat) (installed : Bool)
  /-- The call `gst_app_sink_set_callbacks`: `installed` is true for
  `screen_appsink_callbacks`, false for `no_appsink_callbacks`. -/
  | appsink_set_callbacks (sink : Nat) (installed : Bool)
  /-- The "closed" and "message" handlers are connected to a new websocket. -/
  | ws_connect_handlers (ws : Nat)
  /-- The handlers of the session are disconnected and the final close
  handler is connected. -/
  | ws_final_handler (ws : Nat)
  /-- The call `soup_websocket_connection_close(ws, code, NULL)`. -/
  | ws_close (ws : Nat) (code : Nat)
  /-- The call `g_object_unref(screen->ws)`. -/
  | ws_unref (ws : Option Nat)
  /-- The call `chime_connection_websocket_connect_async` with the
  cancellable of the session. -/
  | connect_async (cancel : Option Nat)
  /-- The call `g_cancellable_cancel`. -/
  | cancellable_cancel (cancel : Nat)
  /-- The state-change notification of `chime_call_screen_set_state`. -/
  | state_signal (state : ChimeScreenState) (message : Option String)
  /-- The call `g_free(screen)`. -/
  | free_screen
  deriving DecidableEq, Repr

/-- Modelled from the spec: the session record `ChimeCallScreen` is declared in
`chime-call-screen.h`, not in `chime-call-screen.c`.  The fields are the ones the
source file reads and writes, which are the attributes of the Session in the
specification (the mutex is left out). -/
structure ChimeCallScreen where
  call : Nat
  cancel : Option Nat
  ws : Option Nat
  state : ChimeScreenState
  screen_src : Option Nat
  screen_sink : Option Nat
  appsrc_need_data : Bool
  viewer_present : Nat
  deriving DecidableEq, Repr

/-! ## Packet codec -/

/-- The bytes of a header in memory: declaration order, one byte each. -/
def screen_pkt.bytes (p : screen_pkt) : List Nat :=
  [p.type, p.flag, p.source, p.dest]

/-- Building a frame the way `screen_send_packet` and
`screen_appsink_new_sample` do: the four header fields are stored into
`unsigned char` fields and the payload is copied behind the header. -/
def screen_pkt_frame (type flag source dest : Nat) (payload : List Nat) : List Nat :=
  screen_pkt.bytes
    { type := type % 256, flag := flag % 256, source := source % 256, dest := dest % 256 }
    ++ payload

/-- Reading a message the way `on_screenws_message` does: nothing when the
message is shorter than 4 bytes, else the header overlaid on the first four
bytes (`const struct screen_pkt *pkt = d`) and the payload `&pkt[1]` of
`s - sizeof(*pkt)` bytes. -/
def screen_pkt_parse (d : List Nat) : Option (screen_pkt × List Nat) :=
  let s := d.length
  if s < 4 then none
  else
    some ({ type := d.getD 0 0, flag := d.getD 1 0, source := d.getD 2 0, dest := d.getD 3 0 },
          (d.drop SIZEOF_SCREEN_PKT).take (s - SIZEOF_SCREEN_PKT))

/-! ## Library calls -/

/-- The length of the fixed RTP header (`GST_RTP_HEADER_LEN`). -/
def GST_RTP_HEADER_LEN : Nat := 12

/-- The GStreamer library call `gst_rtp_buffer_new_allocate(payload_len,
pad_len, csrc_count)`: a buffer that can hold an RTP packet, that is the
fixed RTP header, `csrc_count` 32-bit CSRC slots, `payload_len` payload bytes
and `pad_len` padding bytes.  With no padding and no CSRC the header is the
version byte `0x80` followed by zero fields; the payload bytes are not
initialised.  Bytes this model does not track are `none`. -/
def gst_rtp_buffer_new_allocate (payload_len pad_len csrc_count : Nat) : GstBuffer :=
  (if pad_len = 0 ∧ csrc_count = 0 then
      some 0x80 :: List.replicate (GST_RTP_HEADER_LEN - 1) (some 0)
    else List.replicate GST_RTP_HEADER_LEN none)
  ++ List.replicate (4 * csrc_count) none
  ++ List.replicate payload_len none
  ++ List.replicate pad_len none

/-- The GStreamer library call `gst_buffer_fill(buffer, offset, src, size)`:
copies `size` bytes of `src` into the buffer at `offset`, clamped to the size
of the buffer, which does not change. -/
def gst_buffer_fill (buffer : GstBuffer) (offset : Nat) (src : List Nat) (size : Nat) :
    GstBuffer :=
  let n := min size (buffer.length - offset)
  buffer.take offset ++ (src.take n).map some ++ buffer.drop (offset + n)

/-! ## Handlers -/

/-- Modelled from the spec: the helper `chime_call_screen_set_state` is defined
outside `chime-call-screen.c`.  It stores the new state in the session and makes
it observable through a state-change notification that carries the optional
reason. -/
def chime_call_screen_set_state (screen : ChimeCallScreen) (state : ChimeScreenState)
    (message : Option String) : ChimeCallScreen × List Effect :=
  ({ screen with state := state }, [Effect.state_signal state message])

/-- The function `screen_send_packet(screen, type, data, dlen)`, with `dlen` the length of
`data`: one binary message on `screen->ws`, the header with flag
`SCREEN_PKT_FLAG_LOCAL`, source 0 and dest 0, followed by the data when there
is any. -/
def screen_send_packet (screen : ChimeCallScreen) (type : Nat) (data : List Nat) :
    List Effect :=
  let source := 0
  let dest := 0
  let flag := SCREEN_PKT_FLAG_LOCAL
  let dlen := data.length
  if dlen ≠ 0 then
    [Effect.send_binary screen.ws
      (screen_pkt.bytes
          { type := type % 256, flag := flag % 256, source := source % 256, dest := dest % 256 }
        ++ data.take dlen)]
  else
    [Effect.send_binary screen.ws
      (screen_pkt.bytes
          { type := type % 256, flag := flag % 256, source := source % 256, dest := dest % 256 })]

/-- The recurring block `if (screen->screen_src) { gst_app_src_set_callbacks(...,
&no_appsrc_callbacks, NULL, NULL); screen->screen_src = NULL; }`. -/
def clear_screen_src (screen : ChimeCallScreen) : ChimeCallScreen × List Effect :=
  match screen.screen_src with
  | some src => ({ screen with screen_src := none }, [Effect.appsrc_set_callbacks src false])
  | none => (screen, [])

/-- The recurring block `if (screen->screen_sink) { gst_app_sink_set_callbacks(...,
&no_appsink_callbacks, NULL, NULL); screen->screen_sink = NULL; }`. -/
def clear_screen_sink (screen : ChimeCallScreen) : ChimeCallScreen × List Effect :=
  match screen.screen_sink with
  | some sink => ({ screen with screen_sink := none }, [Effect.appsink_set_callbacks sink false])
  | none => (screen, [])

/-- The handler `on_screenws_closed`. -/
def on_screenws_closed (screen : ChimeCallScreen) : ChimeCallScreen × List Effect :=
  let r1 := chime_call_screen_set_state screen ChimeScreenState.FAILED
    (some "Websocket closed unexpectedly")
  let r2 := clear_screen_src r1.1
  let r3 := clear_screen_sink r2.1
  (r3.1, r1.2 ++ r2.2 ++ r3.2)

/-- The handler `on_screenws_message` (the debug hex dump and the debug log
are left out). -/
def on_screenws_message (screen : ChimeCallScreen) (message : List Nat) :
    ChimeCallScreen × List Effect :=
  let s := message.length
  if s < 4 then (screen, [])
  else
    let pkt : screen_pkt :=
      { type := message.getD 0 0, flag := message.getD 1 0,
        source := message.getD 2 0, dest := message.getD 3 0 }
    if pkt.type = SCREEN_PKT_TYPE_HEARTBEAT_REQUEST then
      (screen, screen_send_packet screen SCREEN_PKT_TYPE_HEARTBEAT_RESPONSE [])
    else if pkt.type = SCREEN_PKT_TYPE_KEY_REQUEST then
      match screen.screen_sink with
      | some sink => ({ screen with viewer_present := 1 }, [Effect.force_key_unit sink])
      | none => (screen, [])
    else if pkt.type = SCREEN_PKT_TYPE_STREAM_STOP then
      match screen.screen_sink with
      | some sink =>
        let fx := screen_send_packet screen SCREEN_PKT_TYPE_PRESENTER_END []
        let r := chime_call_screen_set_state { screen with screen_sink := none }
          ChimeScreenState.CONNECTED none
        (r.1, fx ++ [Effect.appsink_set_callbacks sink false] ++ r.2)
      | none => (screen, [])
    else if pkt.type = SCREEN_PKT_TYPE_CAPTURE then
      match screen.screen_src with
      | some src =>
        let buffer := gst_rtp_buffer_new_allocate (s - 4) 0 0
        let buffer := gst_buffer_fill buffer 0 (message.drop SIZEOF_SCREEN_PKT)
          (s - SIZEOF_SCREEN_PKT)
        (screen, [Effect.push_buffer src buffer])
      | none => (screen, [])
    else (screen, [])

/-- The function `chime_call_screen_install_appsrc`. -/
def chime_call_screen_install_appsrc (screen : ChimeCallScreen) (appsrc : Nat) :
    ChimeCallScreen × List Effect :=
  let s1 := { screen with screen_src := some appsrc }
  let fx1 := [Effect.appsrc_set_callbacks appsrc true]
  let fx2 :=
    if s1.state = ChimeScreenState.SENDING then
      screen_send_packet s1 SCREEN_PKT_TYPE_PRESENTER_END []
    else []
  let r3 := clear_screen_sink s1
  if r3.1.ws.isSome then
    let fx4 := screen_send_packet r3.1 SCREEN_PKT_TYPE_VIEWER_BEGIN []
    let r5 := chime_call_screen_set_state r3.1 ChimeScreenState.VIEWING none
    (r5.1, fx1 ++ fx2 ++ r3.2 ++ fx4 ++ r5.2)
  else (r3.1, fx1 ++ fx2 ++ r3.2)

/-- The function `chime_call_screen_install_appsink`. -/
def chime_call_screen_install_appsink (screen : ChimeCallScreen) (appsink : Nat) :
    ChimeCallScreen × List Effect :=
  let s1 := { screen with screen_sink := some appsink }
  let fx1 := [Effect.appsink_set_callbacks appsink true]
  let fx2 :=
    if s1.state = ChimeScreenState.VIEWING then
      screen_send_packet s1 SCREEN_PKT_TYPE_VIEWER_END []
    else []
  let r3 := clear_screen_src s1
  if r3.1.ws.isSome then
    let s4 := { r3.1 with viewer_present := 0 }
    let fx4 := screen_send_packet s4 SCREEN_PKT_TYPE_PRESENTER_BEGIN []
    let r5 := chime_call_screen_set_state s4 ChimeScreenState.SENDING none
    (r5.1, fx1 ++ fx2 ++ r3.2 ++ fx4 ++ r5.2)
  else (r3.1, fx1 ++ fx2 ++ r3.2)

/-- The outcome of `chime_connection_websocket_connect_finish`: a websocket,
or an error that is a cancellation (`G_IO_ERROR_CANCELLED`) or not. -/
inductive ConnectResult
  | ok (ws : Nat)
  | error (cancelled : Bool) (message : String)
  deriving DecidableEq, Repr

/-- The callback `screen_ws_connect_cb`. -/
def screen_ws_connect_cb (screen : ChimeCallScreen) (res : ConnectResult) :
    ChimeCallScreen × List Effect :=
  match res with
  | ConnectResult.error cancelled message =>
    if !cancelled then
      chime_call_screen_set_state screen ChimeScreenState.FAILED (some message)
    else (screen, [])
  | ConnectResult.ok ws =>
    let fx0 := [Effect.ws_connect_handlers ws]
    let s1 := { screen with ws := some ws }
    let r :=
      match s1.screen_src with
      | some src => chime_call_screen_install_appsrc s1 src
      | none =>
        match s1.screen_sink with
        | some sink => chime_call_screen_install_appsink s1 sink
        | none => chime_call_screen_set_state s1 ChimeScreenState.CONNECTED none
    (r.1, fx0 ++ r.2)

/-- The record `g_new0(ChimeCallScreen, 1)` with `call` and `cancel` filled in.
The state a zero-filled record has is overwritten before `chime_call_screen_open`
returns. -/
def new_screen (call cancel : Nat) : ChimeCallScreen :=
  { call := call, cancel := some cancel, ws := none, state := ChimeScreenState.CONNECTING,
    screen_src := none, screen_sink := none, appsrc_need_data := false, viewer_present := 0 }

/-- The function `chime_call_screen_open(cxn, call, screen)`; `cancel` is the handle
`g_cancellable_new()` returns when a new session is made.  The request
headers of the handshake are left out. -/
def chime_call_screen_open (call : Nat) (screen : Option ChimeCallScreen) (cancel : Nat) :
    ChimeCallScreen × List Effect :=
  match screen with
  | some scr =>
    if scr.state ≠ ChimeScreenState.FAILED then (scr, [])
    else
      let fx0 := [Effect.ws_unref scr.ws]
      let s1 := { scr with ws := none }
      let r2 := clear_screen_src s1
      let r3 := clear_screen_sink r2.1
      let r4 := chime_call_screen_set_state r3.1 ChimeScreenState.CONNECTING none
      (r4.1, fx0 ++ r2.2 ++ r3.2 ++ r4.2 ++ [Effect.connect_async r4.1.cancel])
  | none =>
    let s0 := new_screen call cancel
    let r := chime_call_screen_set_state s0 ChimeScreenState.CONNECTING none
    (r.1, r.2 ++ [Effect.connect_async r.1.cancel])

/-- The function `chime_call_screen_close`: the fields of the record at the moment it
is freed, and the calls made. -/
def chime_call_screen_close (screen : ChimeCallScreen) : ChimeCallScreen × List Effect :=
  let r1 : ChimeCallScreen × List Effect :=
    if screen.state = ChimeScreenState.FAILED ∧ screen.ws.isSome then
      ({ screen with ws := none }, [Effect.ws_unref screen.ws])
    else (screen, [])
  let r2 := chime_call_screen_set_state r1.1 ChimeScreenState.HANGUP none
  let r3 : ChimeCallScreen × List Effect :=
    match r2.1.cancel with
    | some c => ({ r2.1 with cancel := none }, [Effect.cancellable_cancel c])
    | none => (r2.1, [])
  let r4 : ChimeCallScreen × List Effect :=
    match r3.1.ws with
    | some ws => ({ r3.1 with ws := none }, [Effect.ws_final_handler ws, Effect.ws_close ws 0])
    | none => (r3.1, [])
  let r5 := clear_screen_src r4.1
  let r6 := clear_screen_sink r5.1
  (r6.1, r1.2 ++ r2.2 ++ r3.2 ++ r4.2 ++ r5.2 ++ r6.2 ++ [Effect.free_screen])

/-- The callback `screen_appsrc_need_data`. -/
def screen_appsrc_need_data (screen : ChimeCallScreen) : ChimeCallScreen × List Effect :=
  ({ screen with appsrc_need_data := true }, [])

/-- The callback `screen_appsrc_enough_data`. -/
def screen_appsrc_enough_data (screen : ChimeCallScreen) : ChimeCallScreen × List Effect :=
  ({ screen with appsrc_need_data := false }, [])

/-- The destroy notification `screen_appsrc_destroy`. -/
def screen_appsrc_destroy (screen : ChimeCallScreen) : ChimeCallScreen × List Effect :=
  if screen.state = ChimeScreenState.VIEWING then
    let fx := screen_send_packet screen SCREEN_PKT_TYPE_VIEWER_END []
    let r := chime_call_screen_set_state { screen with screen_src := none }
      ChimeScreenState.CONNECTED none
    (r.1, fx ++ r.2)
  else if screen.state = ChimeScreenState.FAILED then
    ({ screen with screen_src := none }, [])
  else (screen, [])

/-- The destroy notification `screen_appsink_destroy`. -/
def screen_appsink_destroy (screen : ChimeCallScreen) : ChimeCallScreen × List Effect :=
  if screen.state = ChimeScreenState.SENDING then
    let fx := screen_send_packet screen SCREEN_PKT_TYPE_PRESENTER_END []
    let r := chime_call_screen_set_state { screen with screen_sink := none }
      ChimeScreenState.CONNECTED none
    (r.1, fx ++ r.2)
  else if screen.state = ChimeScreenState.FAILED then
    ({ screen with screen_sink := none }, [])
  else (screen, [])

/-- The callback `screen_appsink_new_sample`; `sample` is what
`gst_app_sink_pull_sample` returns: nothing, or a sample given by the bytes of
its buffer. -/
def screen_appsink_new_sample (screen : ChimeCallScreen) (sample : Option (List Nat)) :
    ChimeCallScreen × List Effect :=
  match sample with
  | none => (screen, [])
  | some buffer =>
    if screen.state = ChimeScreenState.SENDING ∧ screen.viewer_present ≠ 0 then
      let len := buffer.length
      let buf :=
        screen_pkt.bytes
          { type := SCREEN_PKT_TYPE_CAPTURE % 256, flag := SCREEN_PKT_FLAG_BROADCAST % 256,
            source := 0 % 256, dest := 0 % 256 }
        ++ buffer.take len
      if screen.ws.isSome ∧ screen.state = ChimeScreenState.SENDING then
        (screen, [Effect.send_binary screen.ws buf])
      else (screen, [])
    else (screen, [])

/-! ## Events and runs -/

/-- What can happen to a session after `chime_call_screen_open` made it. -/
inductive Event
  /-- The handshake completes: `screen_ws_connect_cb` runs. -/
  | connect (res : ConnectResult)
  /-- The websocket reports that it closed: `on_screenws_closed` runs. -/
  | ws_closed
  /-- A binary message arrives: `on_screenws_message` runs. -/
  | ws_message (message : List Nat)
  /-- The call `chime_call_screen_install_appsrc(screen, appsrc)`. -/
  | install_appsrc (appsrc : Nat)
  /-- The call `chime_call_screen_install_appsink(screen, appsink)`. -/
  | install_appsink (appsink : Nat)
  /-- The source asks for data. -/
  | appsrc_need_data
  /-- The source has enough data. -/
  | appsrc_enough_data
  /-- The destroy notification of the source callbacks. -/
  | appsrc_destroy
  /-- The destroy notification of the sink callbacks. -/
  | appsink_destroy
  /-- The sink has a sample: `screen_appsink_new_sample` runs. -/
  | new_sample (sample : Option (List Nat))
  /-- The call `chime_call_screen_open(cxn, call, screen)` on the existing session. -/
  | reopen
  /-- The call `chime_call_screen_close(screen)`. -/
  | close
  deriving DecidableEq, Repr

/-- A session together with what its environment knows about it: whether a
handshake started by `chime_connection_websocket_connect_async` has not called
back yet, whether the websocket held in `ws` is open with the handlers of the
session connected, and whether the record has been freed. -/
structure World where
  screen : ChimeCallScreen
  pending : Bool
  ws_open : Bool
  freed : Bool
  deriving DecidableEq, Repr

/-- The newly opened session: `chime_call_screen_open(cxn, call, NULL)`. -/
def World.opened (call cancel : Nat) : World :=
  { screen := (chime_call_screen_open call none cancel).1,
    pending := true, ws_open := false, freed := false }

/-- The events the environment can deliver: nothing after the record is
freed, a handshake result only while a handshake is in flight, a closed
notification or a message only from an open websocket. -/
def enabled (w : World) (e : Event) : Bool :=
  !w.freed &&
    match e with
    | Event.connect _ => w.pending
    | Event.ws_closed => w.ws_open
    | Event.ws_message _ => w.ws_open
    | _ => true

/-- One event: the handler of the source runs on the session record. -/
def step (w : World) (e : Event) : World × List Effect :=
  match e with
  | Event.connect res =>
    let r := screen_ws_connect_cb w.screen res
    ({ w with screen := r.1, pending := false,
              ws_open := match res with
                | ConnectResult.ok _ => true
                | ConnectResult.error _ _ => w.ws_open }, r.2)
  | Event.ws_closed =>
    let r := on_screenws_closed w.screen
    ({ w with screen := r.1, ws_open := false }, r.2)
  | Event.ws_message message =>
    let r := on_screenws_message w.screen message
    ({ w with screen := r.1 }, r.2)
  | Event.install_appsrc appsrc =>
    let r := chime_call_screen_install_appsrc w.screen appsrc
    ({ w with screen := r.1 }, r.2)
  | Event.install_appsink appsink =>
    let r := chime_call_screen_install_appsink w.screen appsink
    ({ w with screen := r.1 }, r.2)
  | Event.appsrc_need_data =>
    let r := screen_appsrc_need_data w.screen
    ({ w with screen := r.1 }, r.2)
  | Event.appsrc_enough_data =>
    let r := screen_appsrc_enough_data w.screen
    ({ w with screen := r.1 }, r.2)
  | Event.appsrc_destroy =>
    let r := screen_appsrc_destroy w.screen
    ({ w with screen := r.1 }, r.2)
  | Event.appsink_destroy =>
    let r := screen_appsink_destroy w.screen
    ({ w with screen := r.1 }, r.2)
  | Event.new_sample sample =>
    let r := screen_appsink_new_sample w.screen sample
    ({ w with screen := r.1 }, r.2)
  | Event.reopen =>
    let r := chime_call_screen_open w.screen.call (some w.screen) 0
    if w.screen.state = ChimeScreenState.FAILED then
      ({ w with screen := r.1, pending := true, ws_open := false }, r.2)
    else ({ w with screen := r.1 }, r.2)
  | Event.close =>
    let r := chime_call_screen_close w.screen
    ({ w with screen := r.1, pending := false, ws_open := false, freed := true }, r.2)

/-- The worlds reachable from a newly opened session. -/
inductive Reachable : World → Prop
  | opened (call cancel : Nat) : Reachable (World.opened call cancel)
  | step (w : World) (e : Event) : Reachable w → enabled w e = true → Reachable (step w e).1

/-- The frames put on the wire by a list of effects, in order. -/
def sent : List Effect → List (List Nat)
  | [] => []
  | Effect.send_binary _ bytes :: fx => bytes :: sent fx
  | _ :: fx => sent fx

/-- The buffers pushed to the source by a list of effects, in order. -/
def pushed : List Effect → List GstBuffer
  | [] => []
  | Effect.push_buffer _ buffer :: fx => buffer :: pushed fx
  | _ :: fx => pushed fx

/-- The transport is open: a websocket is held and it has not closed. -/
def transport_open (w : World) : Prop :=
  w.screen.ws.isSome = true ∧ w.ws_open = true

instance (w : World) : Decidable (transport_open w) := by
  unfold transport_open; infer_instance

/-- The number of adapters bound. -/
def adapters_bound (screen : ChimeCallScreen) : Nat :=
  (if screen.screen_src.isSome then 1 else 0) + (if screen.screen_sink.isSome then 1 else 0)

/-- What holds in every reachable world: at most one adapter is bound, the
role states are the ones with an adapter bound and a websocket held, an open
websocket is held, and no websocket is held while a handshake is in flight. -/
structure Inv (w : World) : Prop where
  one_bound : w.screen.screen_src = none ∨ w.screen.screen_sink = none
  viewing : w.screen.state = ChimeScreenState.VIEWING ↔
    (w.screen.screen_src.isSome = true ∧ w.screen.ws.isSome = true)
  sending : w.screen.state = ChimeScreenState.SENDING ↔
    (w.screen.screen_sink.isSome = true ∧ w.screen.ws.isSome = true)
  open_held : w.ws_open = true → w.screen.ws.isSome = true
  pending_none : w.pending = true → w.screen.ws = none

/-! ## Trace properties and sample sessions -/

/-- A presenting session: sink 9 bound, websocket 1 held, a viewer present. -/
def sending_session : ChimeCallScreen :=
  { call := 0, cancel := some 0, ws := some 1, state := ChimeScreenState.SENDING,
    screen_src := none, screen_sink := some 9, appsrc_need_data := false, viewer_present := 1 }

/-- A viewing session: source 7 bound, websocket 1 held. -/
def viewing_session : ChimeCallScreen :=
  { call := 0, cancel := some 0, ws := some 1, state := ChimeScreenState.VIEWING,
    screen_src := some 7, screen_sink := none, appsrc_need_data := false, viewer_present := 0 }

/-- The presenting session with its websocket open. -/
def sending_world : World :=
  { screen := sending_session, pending := false, ws_open := true, freed := false }

/-- Open, attach source 7 while connecting, handshake success, attach sink 9. -/
def swapped_world : World :=
  (step (step (step (World.opened 0 0) (Event.install_appsrc 7)).1
    (Event.connect (ConnectResult.ok 1))).1 (Event.install_appsink 9)).1

/-- Open, handshake success, the websocket closes, attach source 7. -/
def stale_viewing : World :=
  (step (step (step (World.opened 0 0) (Event.connect (ConnectResult.ok 1))).1
    Event.ws_closed).1 (Event.install_appsrc 7)).1

/-- A Capture message of 46 bytes: the header and a payload of 42 bytes that
starts with `0x80, 0x60`. -/
def capture_example : List Nat :=
  [1, 0, 0, 0, 0x80, 0x60] ++ List.replicate 40 0

/-- The graceful close requests in a list of effects: websocket and close
code, in order. -/
def close_requests : List Effect → List (Nat × Nat)
  | [] => []
  | Effect.ws_close ws code :: fx => (ws, code) :: close_requests fx
  | _ :: fx => close_requests fx

/-- The number of handshakes started by a list of effects. -/
def handshakes : List Effect → Nat
  | [] => 0
  | Effect.connect_async _ :: fx => handshakes fx + 1
  | _ :: fx => handshakes fx

/-- The websocket handles released with `g_object_unref` by a list of effects,
in order. -/
def released : List Effect → List (Option Nat)
  | [] => []
  | Effect.ws_unref ws :: fx => ws :: released fx
  | _ :: fx => released fx

/-- The key-frame events fired by a list of effects: the appsink whose pad
peer receives each, in order. -/
def key_units : List Effect → List Nat
  | [] => []
  | Effect.force_key_unit sink :: fx => sink :: key_units fx
  | _ :: fx => key_units fx

/-- A session in state Connecting: no websocket, nothing bound. -/
def connecting_session : ChimeCallScreen :=
  { call := 0, cancel := some 0, ws := none, state := ChimeScreenState.CONNECTING,
    screen_src := none, screen_sink := none, appsrc_need_data := false, viewer_present := 1 }

/-- A failed session that still holds its closed websocket 1, with the
callbacks of source 7 not yet destroyed. -/
def failed_session : ChimeCallScreen :=
  { call := 0, cancel := some 0, ws := some 1, state := ChimeScreenState.FAILED,
    screen_src := some 7, screen_sink := none, appsrc_need_data := false, viewer_present := 0 }

/-- Open, handshake success, the websocket closes. -/
def failed_world : World :=
  (step (step (World.opened 0 0) (Event.connect (ConnectResult.ok 1))).1 Event.ws_closed).1

/-! ## Packet codec: round trip -/

/-- C1: for every type, flag, source and dest byte and every payload, the frame
built as the controller builds frames is 4 + payload-length bytes long and is
read back by the parser of `on_screenws_message` as the same header and the
same payload. -/
theorem screen_pkt_roundtrip (type flag source dest : Nat) (payload : List Nat)
    (ht : type < 256) (hf : flag < 256) (hs : source < 256) (hd : dest < 256) :
    (screen_pkt_frame type flag source dest payload).length = 4 + payload.length ∧
    screen_pkt_parse (screen_pkt_frame type flag source dest payload)
      = some ({ type := type, flag := flag, source := source, dest := dest }, payload) := by
  have e1 : type % 256 = type := Nat.mod_eq_of_lt ht
  have e2 : flag % 256 = flag := Nat.mod_eq_of_lt hf
  have e3 : source % 256 = source := Nat.mod_eq_of_lt hs
  have e4 : dest % 256 = dest := Nat.mod_eq_of_lt hd
  constructor
  · simp [screen_pkt_frame, screen_pkt.bytes]; omega
  · simp [screen_pkt_parse, screen_pkt_frame, screen_pkt.bytes, SIZEOF_SCREEN_PKT, e1, e2, e3, e4]

/-- C1, at a concrete frame: type 1, flag 1, payload of three bytes. -/
theorem screen_pkt_roundtrip_witness :
    (screen_pkt_frame 1 1 0 0 [128, 96, 7]).length = 4 + [128, 96, 7].length ∧
    screen_pkt_parse (screen_pkt_frame 1 1 0 0 [128, 96, 7])
      = some ({ type := 1, flag := 1, source := 0, dest := 0 }, [128, 96, 7]) :=
  screen_pkt_roundtrip 1 1 0 0 [128, 96, 7] (by decide) (by decide) (by decide) (by decide)

/-- The parser is the reader of `on_screenws_message`: a message it rejects is
dropped by the handler, and for a message it accepts the handler switches on
the parsed type byte and, for a Capture frame with a source bound, fills the
pushed buffer from the parsed payload. -/
theorem on_screenws_message_reads_parsed (screen : ChimeCallScreen) (message : List Nat) :
    (screen_pkt_parse message = none →
      on_screenws_message screen message = (screen, [])) ∧
    (∀ pkt payload src, screen_pkt_parse message = some (pkt, payload) →
      pkt.type = SCREEN_PKT_TYPE_CAPTURE → screen.screen_src = some src →
      on_screenws_message screen message =
        (screen, [Effect.push_buffer src
          (gst_buffer_fill (gst_rtp_buffer_new_allocate payload.length 0 0) 0 payload
            payload.length)])) := by
  constructor
  · intro h
    have hlt : message.length < 4 := by
      by_contra hc
      simp [screen_pkt_parse, hc] at h
    simp [on_screenws_message, hlt]
  · intro pkt payload src h ht hs
    have hlt : ¬ message.length < 4 := by
      intro hc
      simp [screen_pkt_parse, hc] at h
    simp only [screen_pkt_parse, if_neg hlt, Option.some.injEq, Prod.mk.injEq] at h
    obtain ⟨hp, hpay⟩ := h
    subst hp hpay
    simp only at ht
    have htk : (message.drop 4).take (message.length - 4) = message.drop 4 :=
      List.take_of_length_le (by simp)
    simp only [on_screenws_message, if_neg hlt, ht, hs]
    simp [SIZEOF_SCREEN_PKT, htk]

/-! ## Invariants of reachable sessions -/

theorem inv_opened (call cancel : Nat) : Inv (World.opened call cancel) := by
  constructor <;>
    simp [World.opened, chime_call_screen_open, new_screen, chime_call_screen_set_state]

theorem inv_connect (w : World) (res : ConnectResult) (hi : Inv w)
    (he : enabled w (Event.connect res) = true) : Inv (step w (Event.connect res)).1 := by
  obtain ⟨⟨call, cancel, ws, state, src, sink, nd, vp⟩, pending, ws_open, freed⟩ := w
  obtain ⟨h1, h2, h3, h4, h5⟩ := hi
  simp only at h1 h2 h3 h4 h5
  simp only [enabled, Bool.and_eq_true, Bool.not_eq_true'] at he
  have hws : ws = none := h5 he.2
  subst hws
  cases res with
  | ok nws =>
    cases src <;> cases sink <;> cases state <;>
      constructor <;>
      simp_all [step, screen_ws_connect_cb, chime_call_screen_install_appsrc,
        chime_call_screen_install_appsink, chime_call_screen_set_state, clear_screen_sink,
        clear_screen_src, screen_send_packet]
  | error cancelled message =>
    cases cancelled <;> cases src <;> cases sink <;> cases state <;>
      constructor <;>
      simp_all [step, screen_ws_connect_cb, chime_call_screen_set_state]

theorem inv_ws_closed (w : World) (hi : Inv w) : Inv (step w Event.ws_closed).1 := by
  obtain ⟨⟨call, cancel, ws, state, src, sink, nd, vp⟩, pending, ws_open, freed⟩ := w
  obtain ⟨h1, h2, h3, h4, h5⟩ := hi
  simp only at h1 h2 h3 h4 h5
  cases src <;> cases sink <;>
    constructor <;>
    simp_all [step, on_screenws_closed, chime_call_screen_set_state, clear_screen_sink,
      clear_screen_src]

theorem inv_ws_message (w : World) (message : List Nat) (hi : Inv w)
    (he : enabled w (Event.ws_message message) = true) :
    Inv (step w (Event.ws_message message)).1 := by
  obtain ⟨⟨call, cancel, ws, state, src, sink, nd, vp⟩, pending, ws_open, freed⟩ := w
  obtain ⟨h1, h2, h3, h4, h5⟩ := hi
  simp only at h1 h2 h3 h4 h5
  simp only [enabled, Bool.and_eq_true, Bool.not_eq_true'] at he
  have hws := h4 he.2
  cases ws with
  | none => exact absurd hws (by decide)
  | some wsv =>
    simp only [step, on_screenws_message]
    split
    · exact ⟨h1, h2, h3, h4, h5⟩
    · split
      · exact ⟨h1, h2, h3, h4, h5⟩
      · split
        · cases sink <;> cases src <;> cases state <;>
            constructor <;> simp_all
        · split
          · cases sink <;> cases src <;> cases state <;>
              constructor <;>
              simp_all [chime_call_screen_set_state, screen_send_packet]
          · split
            · cases src <;> exact ⟨h1, h2, h3, h4, h5⟩
            · exact ⟨h1, h2, h3, h4, h5⟩

theorem inv_install_appsrc (w : World) (appsrc : Nat) (hi : Inv w) :
    Inv (step w (Event.install_appsrc appsrc)).1 := by
  obtain ⟨⟨call, cancel, ws, state, src, sink, nd, vp⟩, pending, ws_open, freed⟩ := w
  obtain ⟨h1, h2, h3, h4, h5⟩ := hi
  simp only at h1 h2 h3 h4 h5
  cases ws <;> cases sink <;> cases state <;>
    constructor <;>
    simp_all [step, chime_call_screen_install_appsrc, chime_call_screen_set_state,
      clear_screen_sink, screen_send_packet]

theorem inv_install_appsink (w : World) (appsink : Nat) (hi : Inv w) :
    Inv (step w (Event.install_appsink appsink)).1 := by
  obtain ⟨⟨call, cancel, ws, state, src, sink, nd, vp⟩, pending, ws_open, freed⟩ := w
  obtain ⟨h1, h2, h3, h4, h5⟩ := hi
  simp only at h1 h2 h3 h4 h5
  cases ws <;> cases src <;> cases state <;>
    constructor <;>
    simp_all [step, chime_call_screen_install_appsink, chime_call_screen_set_state,
      clear_screen_src, screen_send_packet]

theorem inv_appsrc_destroy (w : World) (hi : Inv w) : Inv (step w Event.appsrc_destroy).1 := by
  obtain ⟨⟨call, cancel, ws, state, src, sink, nd, vp⟩, pending, ws_open, freed⟩ := w
  obtain ⟨h1, h2, h3, h4, h5⟩ := hi
  simp only at h1 h2 h3 h4 h5
  cases ws <;> cases src <;> cases sink <;> cases state <;>
    constructor <;>
    simp_all [step, screen_appsrc_destroy, chime_call_screen_set_state, screen_send_packet]

theorem inv_appsink_destroy (w : World) (hi : Inv w) : Inv (step w Event.appsink_destroy).1 := by
  obtain ⟨⟨call, cancel, ws, state, src, sink, nd, vp⟩, pending, ws_open, freed⟩ := w
  obtain ⟨h1, h2, h3, h4, h5⟩ := hi
  simp only at h1 h2 h3 h4 h5
  cases ws <;> cases src <;> cases sink <;> cases state <;>
    constructor <;>
    simp_all [step, screen_appsink_destroy, chime_call_screen_set_state, screen_send_packet]

theorem inv_reopen (w : World) (hi : Inv w) : Inv (step w Event.reopen).1 := by
  obtain ⟨⟨call, cancel, ws, state, src, sink, nd, vp⟩, pending, ws_open, freed⟩ := w
  obtain ⟨h1, h2, h3, h4, h5⟩ := hi
  simp only at h1 h2 h3 h4 h5
  cases ws <;> cases src <;> cases sink <;> cases state <;>
    constructor <;>
    simp_all [step, chime_call_screen_open, chime_call_screen_set_state, clear_screen_src,
      clear_screen_sink]

theorem inv_close (w : World) (hi : Inv w) : Inv (step w Event.close).1 := by
  obtain ⟨⟨call, cancel, ws, state, src, sink, nd, vp⟩, pending, ws_open, freed⟩ := w
  obtain ⟨h1, h2, h3, h4, h5⟩ := hi
  simp only at h1 h2 h3 h4 h5
  cases ws <;> cases src <;> cases sink <;> cases cancel <;> cases state <;>
    constructor <;>
    simp_all [step, chime_call_screen_close, chime_call_screen_set_state, clear_screen_src,
      clear_screen_sink]

theorem inv_step (w : World) (e : Event) (hi : Inv w) (he : enabled w e = true) :
    Inv (step w e).1 := by
  cases e with
  | connect res => exact inv_connect w res hi he
  | ws_closed => exact inv_ws_closed w hi
  | ws_message message => exact inv_ws_message w message hi he
  | install_appsrc appsrc => exact inv_install_appsrc w appsrc hi
  | install_appsink appsink => exact inv_install_appsink w appsink hi
  | appsrc_need_data => exact ⟨hi.1, hi.2, hi.3, hi.4, hi.5⟩
  | appsrc_enough_data => exact ⟨hi.1, hi.2, hi.3, hi.4, hi.5⟩
  | appsrc_destroy => exact inv_appsrc_destroy w hi
  | appsink_destroy => exact inv_appsink_destroy w hi
  | new_sample sample =>
    cases sample with
    | none => exact ⟨hi.1, hi.2, hi.3, hi.4, hi.5⟩
    | some buffer =>
      simp only [step, screen_appsink_new_sample]
      split
      · split <;> exact ⟨hi.1, hi.2, hi.3, hi.4, hi.5⟩
      · exact ⟨hi.1, hi.2, hi.3, hi.4, hi.5⟩
  | reopen => exact inv_reopen w hi
  | close => exact inv_close w hi

theorem reachable_inv (w : World) (h : Reachable w) : Inv w := by
  induction h with
  | opened call cancel => exact inv_opened call cancel
  | step w e _ he ih => exact inv_step w e ih he

/-! ## Adapter bindings -/

/-- C2: in every world reachable from a newly opened session at most one of
the inbound adapter and the outbound adapter is bound; installing a source
binds it and leaves the sink unbound, installing a sink binds it and leaves
the source unbound. -/
theorem adapters_bound_le_one (w : World) (h : Reachable w) (screen : ChimeCallScreen)
    (a : Nat) :
    adapters_bound w.screen ≤ 1 ∧
    (chime_call_screen_install_appsrc screen a).1.screen_src = some a ∧
    (chime_call_screen_install_appsrc screen a).1.screen_sink = none ∧
    (chime_call_screen_install_appsink screen a).1.screen_sink = some a ∧
    (chime_call_screen_install_appsink screen a).1.screen_src = none := by
  refine ⟨?_, ?_, ?_, ?_, ?_⟩
  · have hi := (reachable_inv w h).one_bound
    unfold adapters_bound
    rcases hi with h1 | h1 <;> rw [h1] <;> simp <;> split <;> omega
  · unfold chime_call_screen_install_appsrc
    cases hs : screen.screen_sink <;>
      simp [clear_screen_sink, chime_call_screen_set_state, hs] <;> split <;> rfl
  · unfold chime_call_screen_install_appsrc
    cases hs : screen.screen_sink <;>
      simp [clear_screen_sink, chime_call_screen_set_state, hs] <;> split <;> simp [hs]
  · unfold chime_call_screen_install_appsink
    cases hs : screen.screen_src <;>
      simp [clear_screen_src, chime_call_screen_set_state, hs] <;> split <;> rfl
  · unfold chime_call_screen_install_appsink
    cases hs : screen.screen_src <;>
      simp [clear_screen_src, chime_call_screen_set_state, hs] <;> split <;> simp [hs]
/-- C2, at a concrete run: after attach source, handshake success and attach
sink at most one adapter is bound. -/
theorem adapters_bound_le_one_witness :
    adapters_bound swapped_world.screen ≤ 1 ∧
    (chime_call_screen_install_appsrc sending_session 7).1.screen_src = some 7 ∧
    (chime_call_screen_install_appsrc sending_session 7).1.screen_sink = none ∧
    (chime_call_screen_install_appsink sending_session 7).1.screen_sink = some 7 ∧
    (chime_call_screen_install_appsink sending_session 7).1.screen_src = none :=
  adapters_bound_le_one swapped_world
    (Reachable.step _ _ (Reachable.step _ _ (Reachable.step _ _ (Reachable.opened 0 0)
      (by decide)) (by decide)) (by decide))
    sending_session 7

/-! ## Role states and the transport -/

/-- C3, evaluated at the run open, handshake success, transport closed,
attach source: the run is reachable and ends in state Viewing with the source
bound although the transport is not open (the closed websocket is still held),
so the equivalence between Viewing and "source bound and transport open" does
not hold in every reachable world. -/
theorem viewing_on_closed_transport :
    Reachable stale_viewing ∧
    stale_viewing.screen.state = ChimeScreenState.VIEWING ∧
    stale_viewing.screen.screen_src = some 7 ∧
    stale_viewing.screen.ws = some 1 ∧
    stale_viewing.ws_open = false ∧
    ¬ transport_open stale_viewing ∧
    ¬ (∀ w : World, Reachable w →
        (w.screen.state = ChimeScreenState.VIEWING ↔
          (w.screen.screen_src.isSome = true ∧ transport_open w)) ∧
        (w.screen.state = ChimeScreenState.SENDING ↔
          (w.screen.screen_sink.isSome = true ∧ transport_open w))) := by
  have hr : Reachable stale_viewing :=
    Reachable.step _ _ (Reachable.step _ _ (Reachable.step _ _ (Reachable.opened 0 0)
      (by decide)) (by decide)) (by decide)
  refine ⟨hr, by decide, by decide, by decide, by decide, by decide, ?_⟩
  intro h
  have h1 := ((h stale_viewing hr).1.mp (by decide)).2
  exact absurd h1 (by decide)

/-! ## Outbound samples -/

/-- C4: for every session and every sample, `screen_appsink_new_sample` leaves the
session record unchanged, sends a frame only if the state is Sending,
`viewer_present` is set and a websocket is held, sends nothing at all when
`viewer_present` is 0 or the state is not Sending, and every frame it sends is
a Capture frame. -/
theorem new_sample_gate (screen : ChimeCallScreen) (sample : Option (List Nat)) :
    (screen_appsink_new_sample screen sample).1 = screen ∧
    (sent (screen_appsink_new_sample screen sample).2 ≠ [] →
      screen.state = ChimeScreenState.SENDING ∧ screen.viewer_present ≠ 0 ∧
      screen.ws.isSome = true) ∧
    ((screen.viewer_present = 0 ∨ screen.state ≠ ChimeScreenState.SENDING) →
      (screen_appsink_new_sample screen sample).2 = []) ∧
    (∀ frame, frame ∈ sent (screen_appsink_new_sample screen sample).2 →
      frame.head? = some SCREEN_PKT_TYPE_CAPTURE) := by
  cases sample with
  | none => simp [screen_appsink_new_sample, sent]
  | some buffer =>
    simp only [screen_appsink_new_sample]
    split_ifs with h1 h2 <;> simp_all [sent, screen_pkt.bytes]

/-- C4, at concrete sessions: a viewing session sends nothing for a sample and
is unchanged. -/
theorem new_sample_gate_witness :
    (screen_appsink_new_sample viewing_session (some [1, 2, 3])).1 = viewing_session ∧
    (screen_appsink_new_sample viewing_session (some [1, 2, 3])).2 = [] :=
  ⟨(new_sample_gate viewing_session (some [1, 2, 3])).1,
   (new_sample_gate viewing_session (some [1, 2, 3])).2.2.1 (Or.inl rfl)⟩

/-! ## Begin and end frames -/

theorem key_request_bound (screen : ChimeCallScreen) (key : List Nat) (sink : Nat)
    (hkey : 4 ≤ key.length ∧ key.getD 0 0 = SCREEN_PKT_TYPE_KEY_REQUEST)
    (hs : screen.screen_sink = some sink) :
    on_screenws_message screen key =
      ({ screen with viewer_present := 1 }, [Effect.force_key_unit sink]) := by
  have h4 : ¬ key.length < 4 := by omega
  simp only [on_screenws_message, if_neg h4, hkey.2, hs]
  simp

/-- For every Capture message of at least 4 bytes received while a source is
bound, exactly one buffer is pushed and nothing else happens; the buffer is
the payload length plus the RTP header length long and starts with the
payload bytes. -/
theorem capture_buffer_general (screen : ChimeCallScreen) (message : List Nat) (src : Nat)
    (h4 : 4 ≤ message.length) (ht : message.getD 0 0 = SCREEN_PKT_TYPE_CAPTURE)
    (hs : screen.screen_src = some src) :
    ∃ buffer : GstBuffer,
      on_screenws_message screen message = (screen, [Effect.push_buffer src buffer]) ∧
      buffer.length = (message.length - 4) + GST_RTP_HEADER_LEN ∧
      buffer.take (message.length - 4) = (message.drop 4).map some := by
  have hlt : ¬ message.length < 4 := by omega
  refine ⟨gst_buffer_fill (gst_rtp_buffer_new_allocate (message.length - 4) 0 0) 0
    (message.drop SIZEOF_SCREEN_PKT) (message.length - SIZEOF_SCREEN_PKT), ?_, ?_, ?_⟩
  · simp only [on_screenws_message, if_neg hlt, ht, hs]
    simp
  · simp [gst_buffer_fill, gst_rtp_buffer_new_allocate, GST_RTP_HEADER_LEN, SIZEOF_SCREEN_PKT]
  · simp [gst_buffer_fill, gst_rtp_buffer_new_allocate, GST_RTP_HEADER_LEN, SIZEOF_SCREEN_PKT]
    rw [min_eq_left (by omega), List.take_append_of_le_length (by simp), List.take_take]
    simp

/-- C8, evaluated at a Capture message of 46 bytes received by a viewing
session: the session is unchanged and one buffer is pushed, but the buffer
is 54 bytes long, the 42 payload bytes followed by 12 bytes that were never
written, not the 42-byte buffer that holds exactly the payload. -/
theorem capture_buffer_longer_than_payload :
    (on_screenws_message viewing_session capture_example).1 = viewing_session ∧
    capture_example.length = 46 ∧
    (pushed (on_screenws_message viewing_session capture_example).2).map List.length = [54] ∧
    pushed (on_screenws_message viewing_session capture_example).2
      = [(capture_example.drop 4).map some ++ List.replicate 12 none] ∧
    pushed (on_screenws_message viewing_session capture_example).2
      ≠ [(capture_example.drop 4).map some] := by
  decide

/-! ## Addressing of outbound frames -/

set_option maxHeartbeats 4000000 in
theorem step_frames_addressing (w : World) (e : Event) :
    ∀ frame ∈ sent (step w e).2,
      4 ≤ frame.length ∧ frame.getD 2 1 = 0 ∧ frame.getD 3 1 = 0 := by
  obtain ⟨⟨call, cancel, ws, state, src, sink, nd, vp⟩, pending, ws_open, freed⟩ := w
  cases e with
  | connect res =>
    cases res with
    | ok nws =>
      cases src <;> cases sink <;> cases state <;>
        simp [step, screen_ws_connect_cb, chime_call_screen_install_appsrc,
          chime_call_screen_install_appsink, chime_call_screen_set_state, clear_screen_sink,
          clear_screen_src, screen_send_packet, sent, screen_pkt.bytes]
    | error cancelled message =>
      cases cancelled <;>
        simp [step, screen_ws_connect_cb, chime_call_screen_set_state, sent]
  | ws_closed =>
    cases src <;> cases sink <;>
      simp [step, on_screenws_closed, chime_call_screen_set_state, clear_screen_sink,
        clear_screen_src, sent]
  | ws_message message =>
    simp only [step, on_screenws_message]
    split
    · simp [sent]
    · split
      · simp [sent, screen_send_packet, screen_pkt.bytes]
      · split
        · cases sink <;> simp [sent]
        · split
          · cases sink <;>
              simp [chime_call_screen_set_state, screen_send_packet, sent, screen_pkt.bytes]
          · split
            · cases src <;> simp [sent]
            · simp [sent]
  | install_appsrc appsrc =>
    cases ws <;> cases sink <;> cases state <;>
      simp [step, chime_call_screen_install_appsrc, chime_call_screen_set_state,
        clear_screen_sink, screen_send_packet, sent, screen_pkt.bytes]
  | install_appsink appsink =>
    cases ws <;> cases src <;> cases state <;>
      simp [step, chime_call_screen_install_appsink, chime_call_screen_set_state,
        clear_screen_src, screen_send_packet, sent, screen_pkt.bytes]
  | appsrc_need_data => simp [step, screen_appsrc_need_data, sent]
  | appsrc_enough_data => simp [step, screen_appsrc_enough_data, sent]
  | appsrc_destroy =>
    cases state <;>
      simp [step, screen_appsrc_destroy, chime_call_screen_set_state, screen_send_packet,
        sent, screen_pkt.bytes]
  | appsink_destroy =>
    cases state <;>
      simp [step, screen_appsink_destroy, chime_call_screen_set_state, screen_send_packet,
        sent, screen_pkt.bytes]
  | new_sample sample =>
    cases sample with
    | none => simp [step, screen_appsink_new_sample, sent]
    | some buffer =>
      simp only [step, screen_appsink_new_sample]
      split
      · split <;> simp [sent, screen_pkt.bytes]
      · simp [sent]
  | reopen =>
    cases src <;> cases sink <;> cases state <;>
      simp [step, chime_call_screen_open, chime_call_screen_set_state, clear_screen_src,
        clear_screen_sink, sent]
  | close =>
    cases ws <;> cases src <;> cases sink <;> cases cancel <;> cases state <;>
      simp [step, chime_call_screen_close, chime_call_screen_set_state, clear_screen_src,
        clear_screen_sink, sent]

/-- C9: a control frame sent through `screen_send_packet` with type byte t and
data d is exactly the bytes t, 2 (Local), 0, 0 followed by d, so 4 bytes more
than d; every frame `screen_appsink_new_sample` sends for a sample is exactly 1
(Capture), 1 (Broadcast), 0, 0 followed by the sample bytes, 4 bytes more than
the sample, and it is sent when the state is Sending, a viewer is present and
a websocket is held; every frame any event puts on the wire has at least 4
bytes with source byte 0 and dest byte 0. -/
theorem wire_frames (screen : ChimeCallScreen) (t : Nat) (d sample : List Nat) (w : World)
    (e : Event) (ht : t < 256) :
    screen_send_packet screen t d
      = [Effect.send_binary screen.ws ([t, SCREEN_PKT_FLAG_LOCAL, 0, 0] ++ d)] ∧
    ([t, SCREEN_PKT_FLAG_LOCAL, 0, 0] ++ d).length = d.length + 4 ∧
    (∀ frame ∈ sent (screen_appsink_new_sample screen (some sample)).2,
      frame = [SCREEN_PKT_TYPE_CAPTURE, SCREEN_PKT_FLAG_BROADCAST, 0, 0] ++ sample ∧
      frame.length = sample.length + 4) ∧
    (screen.state = ChimeScreenState.SENDING ∧ screen.viewer_present ≠ 0 ∧
        screen.ws.isSome = true →
      sent (screen_appsink_new_sample screen (some sample)).2
        = [[SCREEN_PKT_TYPE_CAPTURE, SCREEN_PKT_FLAG_BROADCAST, 0, 0] ++ sample]) ∧
    (∀ frame ∈ sent (step w e).2,
      4 ≤ frame.length ∧ frame.getD 2 1 = 0 ∧ frame.getD 3 1 = 0) := by
  have e1 : t % 256 = t := Nat.mod_eq_of_lt ht
  refine ⟨?_, ?_, ?_, ?_, step_frames_addressing w e⟩
  · unfold screen_send_packet
    cases d with
    | nil => simp [screen_pkt.bytes, e1]
    | cons x xs => simp [screen_pkt.bytes, e1]
  · simp
  · intro frame hf
    simp only [screen_appsink_new_sample] at hf
    split at hf
    · split at hf
      · simp [sent, screen_pkt.bytes] at hf
        subst hf
        simp
      · simp [sent] at hf
    · simp [sent] at hf
  · rintro ⟨h1, h2, h3⟩
    simp [screen_appsink_new_sample, h1, h2, h3, sent, screen_pkt.bytes]

/-- C9, at a HeartbeatResponse and at a sample of 900 bytes, which gives a
frame of 904 bytes. -/
theorem wire_frames_witness :
    screen_send_packet sending_session SCREEN_PKT_TYPE_HEARTBEAT_RESPONSE []
      = [Effect.send_binary (some 1) [7, 2, 0, 0]] ∧
    sent (screen_appsink_new_sample sending_session (some (List.replicate 900 0))).2
      = [[1, 1, 0, 0] ++ List.replicate 900 0] ∧
    ([1, 1, 0, 0] ++ List.replicate 900 0).length = 904 :=
  ⟨(wire_frames sending_session 7 [] (List.replicate 900 0) sending_world Event.reopen
      (by decide)).1,
   (wire_frames sending_session 7 [] (List.replicate 900 0) sending_world Event.reopen
      (by decide)).2.2.2.1 ⟨rfl, by decide, rfl⟩,
   by rw [List.length_append, List.length_replicate]; rfl⟩

/-! ## Anomalous inbound frames -/

/-- C10: for every session and every inbound message that is shorter than 4
bytes, or at least 4 bytes long with a type byte other than Capture,
KeyRequest, StreamStop and HeartbeatRequest, `on_screenws_message` returns the
session record unchanged and makes no call at all: no frame, no buffer, no
key-frame event. -/
theorem anomalous_message_dropped (screen : ChimeCallScreen) (message : List Nat)
    (h : message.length < 4 ∨
      (4 ≤ message.length ∧
        message.getD 0 0 ≠ SCREEN_PKT_TYPE_CAPTURE ∧
        message.getD 0 0 ≠ SCREEN_PKT_TYPE_KEY_REQUEST ∧
        message.getD 0 0 ≠ SCREEN_PKT_TYPE_STREAM_STOP ∧
        message.getD 0 0 ≠ SCREEN_PKT_TYPE_HEARTBEAT_REQUEST)) :
    on_screenws_message screen message = (screen, []) := by
  unfold on_screenws_message
  rcases h with h | ⟨h4, h1, h2, h5, h6⟩
  · simp [h]
  · have : ¬ message.length < 4 := by omega
    simp only [this, h1, h2, h5, h6, if_false]

/-- C10, at a 3-byte message that starts with the HeartbeatRequest code and at
a 5-byte PresenterBegin message. -/
theorem anomalous_message_dropped_witness :
    on_screenws_message viewing_session [6, 0, 0] = (viewing_session, []) ∧
    on_screenws_message sending_session [3, 2, 0, 0, 5] = (sending_session, []) :=
  ⟨anomalous_message_dropped viewing_session [6, 0, 0] (Or.inl (by decide)),
   anomalous_message_dropped sending_session [3, 2, 0, 0, 5]
     (Or.inr ⟨by decide, by decide, by decide, by decide, by decide⟩)⟩

/-! ## Inbound control frames -/

/-- C11: for every session that holds a websocket and every inbound message of
at least 4 bytes whose type byte is HeartbeatRequest, whatever the other
bytes, `on_screenws_message` makes exactly one call, the send of the 4-byte
HeartbeatResponse 7, 2, 0, 0 on the held websocket, and returns the session
record unchanged. -/
theorem heartbeat_reply (screen : ChimeCallScreen) (message : List Nat)
    (hws : screen.ws.isSome = true) (h4 : 4 ≤ message.length)
    (ht : message.getD 0 0 = SCREEN_PKT_TYPE_HEARTBEAT_REQUEST) :
    (∃ ws, screen.ws = some ws ∧
      on_screenws_message screen message =
        (screen, [Effect.send_binary (some ws)
          [SCREEN_PKT_TYPE_HEARTBEAT_RESPONSE, SCREEN_PKT_FLAG_LOCAL, 0, 0]])) ∧
    sent (on_screenws_message screen message).2 = [[7, 2, 0, 0]] := by
  have hlt : ¬ message.length < 4 := by omega
  have h : on_screenws_message screen message =
      (screen, [Effect.send_binary screen.ws
        [SCREEN_PKT_TYPE_HEARTBEAT_RESPONSE, SCREEN_PKT_FLAG_LOCAL, 0, 0]]) := by
    simp only [on_screenws_message, if_neg hlt, ht]
    simp [screen_send_packet, screen_pkt.bytes]
  obtain ⟨ws, hw⟩ := Option.isSome_iff_exists.mp hws
  exact ⟨⟨ws, hw, by rw [h, hw]⟩, by rw [h]; rfl⟩

/-- C11, at a presenting session and a 6-byte HeartbeatRequest. -/
theorem heartbeat_reply_witness :
    sent (on_screenws_message sending_session [6, 9, 3, 4, 1, 2]).2 = [[7, 2, 0, 0]] ∧
    (on_screenws_message sending_session [6, 9, 3, 4, 1, 2]).1 = sending_session :=
  ⟨(heartbeat_reply sending_session [6, 9, 3, 4, 1, 2] (by decide) (by decide) (by decide)).2,
   by decide⟩

/-- C13: for every inbound message of at least 4 bytes whose type byte is
KeyRequest: with a sink bound, `on_screenws_message` sets `viewer_present` to 1,
fires exactly one force-key-unit event at that sink and does nothing else (no
frame, state and bindings unchanged); with no sink bound it changes nothing
and makes no call. -/
theorem key_request (screen : ChimeCallScreen) (message : List Nat)
    (h4 : 4 ≤ message.length)
    (ht : message.getD 0 0 = SCREEN_PKT_TYPE_KEY_REQUEST) :
    (∀ sink, screen.screen_sink = some sink →
      on_screenws_message screen message =
        ({ screen with viewer_present := 1 }, [Effect.force_key_unit sink]) ∧
      key_units (on_screenws_message screen message).2 = [sink] ∧
      sent (on_screenws_message screen message).2 = []) ∧
    (screen.screen_sink = none → on_screenws_message screen message = (screen, [])) := by
  have hlt : ¬ message.length < 4 := by omega
  constructor
  · intro sink hs
    have h := key_request_bound screen message sink ⟨h4, ht⟩ hs
    exact ⟨h, by rw [h]; rfl, by rw [h]; rfl⟩
  · intro hs
    simp only [on_screenws_message, if_neg hlt, ht, hs]
    simp

/-- C13, at a presenting session and at a viewing session. -/
theorem key_request_witness :
    on_screenws_message sending_session [2, 0, 0, 0] =
      ({ sending_session with viewer_present := 1 }, [Effect.force_key_unit 9]) ∧
    on_screenws_message viewing_session [2, 0, 0, 0] = (viewing_session, []) :=
  ⟨((key_request sending_session [2, 0, 0, 0] (by decide) (by decide)).1 9 rfl).1,
   (key_request viewing_session [2, 0, 0, 0] (by decide) (by decide)).2 rfl⟩

/-! ## Handshake, unexpected close, re-open and close -/

/-- C14: handshake completion on a session in state Connecting with no
websocket held.  On success the websocket is stored; with a source bound
exactly one ViewerBegin is sent and the state becomes Viewing; otherwise with
a sink bound `viewer_present` becomes 0, exactly one PresenterBegin is sent
and the state becomes Sending; otherwise nothing is sent and the state becomes
Connected.  On an error that is not a cancellation only the state changes, to
Failed, and no websocket is stored; on a cancellation the session is
unchanged and no call is made. -/
theorem handshake_completion (screen : ChimeCallScreen) (ws : Nat) (message : String)
    (hst : screen.state = ChimeScreenState.CONNECTING) (hws : screen.ws = none) :
    (screen_ws_connect_cb screen (ConnectResult.ok ws)).1.ws = some ws ∧
    (∀ src, screen.screen_src = some src →
      sent (screen_ws_connect_cb screen (ConnectResult.ok ws)).2 = [[8, 2, 0, 0]] ∧
      (screen_ws_connect_cb screen (ConnectResult.ok ws)).1.state = ChimeScreenState.VIEWING ∧
      (screen_ws_connect_cb screen (ConnectResult.ok ws)).1.screen_src = some src) ∧
    (screen.screen_src = none → ∀ sink, screen.screen_sink = some sink →
      (screen_ws_connect_cb screen (ConnectResult.ok ws)).1.viewer_present = 0 ∧
      sent (screen_ws_connect_cb screen (ConnectResult.ok ws)).2 = [[3, 2, 0, 0]] ∧
      (screen_ws_connect_cb screen (ConnectResult.ok ws)).1.state = ChimeScreenState.SENDING ∧
      (screen_ws_connect_cb screen (ConnectResult.ok ws)).1.screen_sink = some sink) ∧
    (screen.screen_src = none → screen.screen_sink = none →
      screen_ws_connect_cb screen (ConnectResult.ok ws) =
        ({ screen with ws := some ws, state := ChimeScreenState.CONNECTED },
         [Effect.ws_connect_handlers ws,
          Effect.state_signal ChimeScreenState.CONNECTED none])) ∧
    screen_ws_connect_cb screen (ConnectResult.error false message) =
      ({ screen with state := ChimeScreenState.FAILED },
       [Effect.state_signal ChimeScreenState.FAILED (some message)]) ∧
    (screen_ws_connect_cb screen (ConnectResult.error false message)).1.ws = none ∧
    screen_ws_connect_cb screen (ConnectResult.error true message) = (screen, []) := by
  obtain ⟨call, cancel, ws0, state, src, sink, nd, vp⟩ := screen
  simp only at hst hws
  subst hst hws
  refine ⟨?_, ?_, ?_, ?_, ?_, ?_, ?_⟩
  · cases src <;> cases sink <;>
      simp [screen_ws_connect_cb, chime_call_screen_install_appsrc,
        chime_call_screen_install_appsink, chime_call_screen_set_state, clear_screen_sink,
        clear_screen_src]
  · intro a ha
    simp only at ha
    subst ha
    cases sink <;>
      simp [screen_ws_connect_cb, chime_call_screen_install_appsrc,
        chime_call_screen_set_state, clear_screen_sink, screen_send_packet, sent,
        screen_pkt.bytes]
  · intro hs a ha
    simp only at hs ha
    subst hs ha
    simp [screen_ws_connect_cb, chime_call_screen_install_appsink,
      chime_call_screen_set_state, clear_screen_src, screen_send_packet, sent,
      screen_pkt.bytes]
  · intro hs ha
    simp only at hs ha
    subst hs ha
    simp [screen_ws_connect_cb, chime_call_screen_set_state]
  · simp [screen_ws_connect_cb, chime_call_screen_set_state]
  · simp [screen_ws_connect_cb, chime_call_screen_set_state]
  · simp [screen_ws_connect_cb]

/-- C14, at a connecting session with nothing bound. -/
theorem handshake_completion_witness :
    (screen_ws_connect_cb connecting_session (ConnectResult.ok 1)).1.ws = some 1 ∧
    (screen_ws_connect_cb connecting_session (ConnectResult.ok 1)).1.state
      = ChimeScreenState.CONNECTED ∧
    (screen_ws_connect_cb connecting_session (ConnectResult.error false "refused")).1.state
      = ChimeScreenState.FAILED ∧
    screen_ws_connect_cb connecting_session (ConnectResult.error true "cancelled")
      = (connecting_session, []) :=
  ⟨(handshake_completion connecting_session 1 "refused" rfl rfl).1,
   by rw [(handshake_completion connecting_session 1 "refused" rfl rfl).2.2.2.1 rfl rfl],
   by rw [(handshake_completion connecting_session 1 "refused" rfl rfl).2.2.2.2.1],
   (handshake_completion connecting_session 1 "cancelled" rfl rfl).2.2.2.2.2.2⟩

/-- C15: for every session whose state is not Hangup, `on_screenws_closed` sets
the state to Failed, first of all and with the reason "Websocket closed
unexpectedly", leaves both adapters unbound and every other field as it was,
and sends no frame. -/
theorem closed_fails_session (screen : ChimeCallScreen)
    (hst : screen.state ≠ ChimeScreenState.HANGUP) :
    (on_screenws_closed screen).1 =
      { screen with state := ChimeScreenState.FAILED, screen_src := none,
                    screen_sink := none } ∧
    (on_screenws_closed screen).2.head? =
      some (Effect.state_signal ChimeScreenState.FAILED
        (some "Websocket closed unexpectedly")) ∧
    sent (on_screenws_closed screen).2 = [] := by
  obtain ⟨call, cancel, ws0, state, src, sink, nd, vp⟩ := screen
  cases src <;> cases sink <;>
    simp [on_screenws_closed, chime_call_screen_set_state, clear_screen_src,
      clear_screen_sink, sent]

/-- C15, at a presenting session: the websocket handle is still held. -/
theorem closed_fails_session_witness :
    (on_screenws_closed sending_session).1.state = ChimeScreenState.FAILED ∧
    (on_screenws_closed sending_session).1.screen_sink = none ∧
    (on_screenws_closed sending_session).1.ws = some 1 ∧
    sent (on_screenws_closed sending_session).2 = [] :=
  ⟨by rw [(closed_fails_session sending_session (by decide)).1],
   by rw [(closed_fails_session sending_session (by decide)).1],
   by rw [(closed_fails_session sending_session (by decide)).1]; rfl,
   (closed_fails_session sending_session (by decide)).2.2⟩

/-- C16: `chime_call_screen_open` on an existing session.  When the state is not
Failed it returns the session unchanged and makes no call.  When the state is
Failed it returns the session with no websocket, no adapter bound and state
Connecting, releases the old handle, requests no close, sends no frame and
starts exactly one handshake. -/
theorem reopen_policy (call cancel : Nat) (screen : ChimeCallScreen) :
    (screen.state ≠ ChimeScreenState.FAILED →
      chime_call_screen_open call (some screen) cancel = (screen, [])) ∧
    (screen.state = ChimeScreenState.FAILED →
      (chime_call_screen_open call (some screen) cancel).1 =
        { screen with ws := none, screen_src := none, screen_sink := none,
                      state := ChimeScreenState.CONNECTING } ∧
      released (chime_call_screen_open call (some screen) cancel).2 = [screen.ws] ∧
      close_requests (chime_call_screen_open call (some screen) cancel).2 = [] ∧
      sent (chime_call_screen_open call (some screen) cancel).2 = [] ∧
      handshakes (chime_call_screen_open call (some screen) cancel).2 = 1) := by
  obtain ⟨call0, cancel0, ws0, state, src, sink, nd, vp⟩ := screen
  constructor
  · intro h
    simp only at h
    simp [chime_call_screen_open, h]
  · intro h
    simp only at h
    subst h
    cases src <;> cases sink <;>
      simp [chime_call_screen_open, chime_call_screen_set_state, clear_screen_src,
        clear_screen_sink, released, close_requests, sent, handshakes]

/-- C16, at a viewing session and at a failed session. -/
theorem reopen_policy_witness :
    chime_call_screen_open 0 (some viewing_session) 0 = (viewing_session, []) ∧
    (chime_call_screen_open 0 (some failed_session) 0).1.state = ChimeScreenState.CONNECTING ∧
    (chime_call_screen_open 0 (some failed_session) 0).1.ws = none ∧
    handshakes (chime_call_screen_open 0 (some failed_session) 0).2 = 1 :=
  ⟨(reopen_policy 0 0 viewing_session).1 (by decide),
   by rw [((reopen_policy 0 0 failed_session).2 rfl).1],
   by rw [((reopen_policy 0 0 failed_session).2 rfl).1],
   ((reopen_policy 0 0 failed_session).2 rfl).2.2.2.2⟩

set_option maxHeartbeats 4000000 in
theorem close_effects (screen : ChimeCallScreen) :
    (chime_call_screen_close screen).1.state = ChimeScreenState.HANGUP ∧
    sent (chime_call_screen_close screen).2 = [] ∧
    (chime_call_screen_close screen).1.ws = none ∧
    (chime_call_screen_close screen).1.screen_src = none ∧
    (chime_call_screen_close screen).1.screen_sink = none ∧
    (∀ ws, screen.ws = some ws → screen.state ≠ ChimeScreenState.FAILED →
      close_requests (chime_call_screen_close screen).2 = [(ws, 0)] ∧
      released (chime_call_screen_close screen).2 = []) ∧
    (screen.ws = none → close_requests (chime_call_screen_close screen).2 = []) ∧
    (screen.state = ChimeScreenState.FAILED →
      close_requests (chime_call_screen_close screen).2 = [] ∧
      ∀ ws, screen.ws = some ws →
        released (chime_call_screen_close screen).2 = [some ws]) := by
  obtain ⟨call0, cancel0, ws0, state, src, sink, nd, vp⟩ := screen
  refine ⟨?_, ?_, ?_, ?_, ?_, ?_, ?_, ?_⟩
  · cases ws0 <;> cases src <;> cases sink <;> cases cancel0 <;> cases state <;>
      simp [chime_call_screen_close, chime_call_screen_set_state, clear_screen_src,
        clear_screen_sink]
  · cases ws0 <;> cases src <;> cases sink <;> cases cancel0 <;> cases state <;>
      simp [chime_call_screen_close, chime_call_screen_set_state, clear_screen_src,
        clear_screen_sink, sent]
  · cases ws0 <;> cases src <;> cases sink <;> cases cancel0 <;> cases state <;>
      simp [chime_call_screen_close, chime_call_screen_set_state, clear_screen_src,
        clear_screen_sink]
  · cases ws0 <;> cases src <;> cases sink <;> cases cancel0 <;> cases state <;>
      simp [chime_call_screen_close, chime_call_screen_set_state, clear_screen_src,
        clear_screen_sink]
  · cases ws0 <;> cases src <;> cases sink <;> cases cancel0 <;> cases state <;>
      simp [chime_call_screen_close, chime_call_screen_set_state, clear_screen_src,
        clear_screen_sink]
  · intro ws hw hst
    simp only at hw hst
    subst hw
    cases src <;> cases sink <;> cases cancel0 <;> cases state <;>
      simp_all [chime_call_screen_close, chime_call_screen_set_state, clear_screen_src,
        clear_screen_sink, close_requests, released]
  · intro hw
    simp only at hw
    subst hw
    cases src <;> cases sink <;> cases cancel0 <;> cases state <;>
      simp [chime_call_screen_close, chime_call_screen_set_state, clear_screen_src,
        clear_screen_sink, close_requests]
  · intro hst
    simp only at hst
    subst hst
    cases ws0 <;> cases src <;> cases sink <;> cases cancel0 <;>
      simp [chime_call_screen_close, chime_call_screen_set_state, clear_screen_src,
        clear_screen_sink, close_requests, released]

/-- C17: for every session, `chime_call_screen_close` sets the state to Hangup,
sends no frame and ends with no websocket held and no adapter bound.  With a
websocket held and a state other than Failed it requests exactly one close of
that websocket with code 0 and releases nothing; with no websocket held, or
in state Failed, it requests no close; in state Failed a held websocket is
released at once. -/
theorem close_policy (screen : ChimeCallScreen) :
    (chime_call_screen_close screen).1.state = ChimeScreenState.HANGUP ∧
    sent (chime_call_screen_close screen).2 = [] ∧
    (chime_call_screen_close screen).1.ws = none ∧
    (chime_call_screen_close screen).1.screen_src = none ∧
    (chime_call_screen_close screen).1.screen_sink = none ∧
    (∀ ws, screen.ws = some ws → screen.state ≠ ChimeScreenState.FAILED →
      close_requests (chime_call_screen_close screen).2 = [(ws, 0)] ∧
      released (chime_call_screen_close screen).2 = []) ∧
    (screen.ws = none → close_requests (chime_call_screen_close screen).2 = []) ∧
    (screen.state = ChimeScreenState.FAILED →
      close_requests (chime_call_screen_close screen).2 = [] ∧
      ∀ ws, screen.ws = some ws →
        released (chime_call_screen_close screen).2 = [some ws]) :=
  close_effects screen

/-- C17, at a presenting session and at a failed session. -/
theorem close_policy_witness :
    (chime_call_screen_close sending_session).1.state = ChimeScreenState.HANGUP ∧
    close_requests (chime_call_screen_close sending_session).2 = [(1, 0)] ∧
    close_requests (chime_call_screen_close failed_session).2 = [] ∧
    released (chime_call_screen_close failed_session).2 = [some 1] :=
  ⟨(close_policy sending_session).1,
   ((close_policy sending_session).2.2.2.2.2.1 1 rfl (by decide)).1,
   ((close_policy failed_session).2.2.2.2.2.2.2 rfl).1,
   ((close_policy failed_session).2.2.2.2.2.2.2 rfl).2 1 rfl⟩

/-! ## Adapter destruction and attach without a transport -/

/-- C18: for a session in state Viewing, `screen_appsrc_destroy` sends exactly
one ViewerEnd, unbinds the source and sets the state to Connected; for a
session in state Sending, `screen_appsink_destroy` sends exactly one
PresenterEnd, unbinds the sink and sets the state to Connected; for a session
in state Failed, either notification only clears its binding: no call is made
and the state stays Failed. -/
theorem adapter_destroyed (s1 s2 s3 : ChimeCallScreen)
    (h1 : s1.state = ChimeScreenState.VIEWING) (h2 : s2.state = ChimeScreenState.SENDING)
    (h3 : s3.state = ChimeScreenState.FAILED) :
    screen_appsrc_destroy s1 =
      ({ s1 with screen_src := none, state := ChimeScreenState.CONNECTED },
       [Effect.send_binary s1.ws [SCREEN_PKT_TYPE_VIEWER_END, SCREEN_PKT_FLAG_LOCAL, 0, 0],
        Effect.state_signal ChimeScreenState.CONNECTED none]) ∧
    sent (screen_appsrc_destroy s1).2 = [[9, 2, 0, 0]] ∧
    screen_appsink_destroy s2 =
      ({ s2 with screen_sink := none, state := ChimeScreenState.CONNECTED },
       [Effect.send_binary s2.ws [SCREEN_PKT_TYPE_PRESENTER_END, SCREEN_PKT_FLAG_LOCAL, 0, 0],
        Effect.state_signal ChimeScreenState.CONNECTED none]) ∧
    sent (screen_appsink_destroy s2).2 = [[4, 2, 0, 0]] ∧
    screen_appsrc_destroy s3 = ({ s3 with screen_src := none }, []) ∧
    screen_appsink_destroy s3 = ({ s3 with screen_sink := none }, []) := by
  obtain ⟨c1, n1, w1, st1, src1, sink1, nd1, vp1⟩ := s1
  obtain ⟨c2, n2, w2, st2, src2, sink2, nd2, vp2⟩ := s2
  obtain ⟨c3, n3, w3, st3, src3, sink3, nd3, vp3⟩ := s3
  simp only at h1 h2 h3
  subst h1 h2 h3
  simp [screen_appsrc_destroy, screen_appsink_destroy, chime_call_screen_set_state,
    screen_send_packet, screen_pkt.bytes, sent]

/-- C18, at a viewing, a presenting and a failed session. -/
theorem adapter_destroyed_witness :
    sent (screen_appsrc_destroy viewing_session).2 = [[9, 2, 0, 0]] ∧
    sent (screen_appsink_destroy sending_session).2 = [[4, 2, 0, 0]] ∧
    screen_appsrc_destroy failed_session = ({ failed_session with screen_src := none }, []) ∧
    screen_appsink_destroy failed_session = ({ failed_session with screen_sink := none }, []) :=
  ⟨(adapter_destroyed viewing_session sending_session failed_session rfl rfl rfl).2.1,
   (adapter_destroyed viewing_session sending_session failed_session rfl rfl rfl).2.2.2.1,
   (adapter_destroyed viewing_session sending_session failed_session rfl rfl rfl).2.2.2.2.1,
   (adapter_destroyed viewing_session sending_session failed_session rfl rfl rfl).2.2.2.2.2⟩

/-- In every reachable world that holds no websocket, installing a source or a
sink only records the new binding and releases the other one: no frame is
sent and the state is unchanged. -/
theorem install_without_websocket (w : World) (a : Nat) (h : Reachable w)
    (hws : w.screen.ws = none) :
    (chime_call_screen_install_appsrc w.screen a).1 =
      { w.screen with screen_src := some a, screen_sink := none } ∧
    sent (chime_call_screen_install_appsrc w.screen a).2 = [] ∧
    (chime_call_screen_install_appsink w.screen a).1 =
      { w.screen with screen_sink := some a, screen_src := none } ∧
    sent (chime_call_screen_install_appsink w.screen a).2 = [] := by
  have hi := reachable_inv w h
  clear h
  obtain ⟨⟨call, cancel, ws, state, src, sink, nd, vp⟩, pending, ws_open, freed⟩ := w
  obtain ⟨h1, h2, h3, h4, h5⟩ := hi
  simp only at h1 h2 h3 h4 h5 hws
  subst hws
  cases src <;> cases sink <;> cases state <;>
    simp_all [chime_call_screen_install_appsrc, chime_call_screen_install_appsink,
      clear_screen_sink, clear_screen_src, screen_send_packet, sent]

/-- C19, evaluated at the run open, handshake success, transport closed: the
world is reachable, its state is Failed and its transport is not open, yet
installing a source sends ViewerBegin and sets the state to Viewing, and
installing a sink sends PresenterBegin and sets the state to Sending; after
that a re-open leaves the session as it is. -/
theorem attach_after_unexpected_close :
    Reachable failed_world ∧
    failed_world.screen.state = ChimeScreenState.FAILED ∧
    failed_world.ws_open = false ∧
    sent (step failed_world (Event.install_appsrc 7)).2 = [[8, 2, 0, 0]] ∧
    (step failed_world (Event.install_appsrc 7)).1.screen.state = ChimeScreenState.VIEWING ∧
    sent (step failed_world (Event.install_appsink 9)).2 = [[3, 2, 0, 0]] ∧
    (step failed_world (Event.install_appsink 9)).1.screen.state = ChimeScreenState.SENDING ∧
    (step (step failed_world (Event.install_appsrc 7)).1 Event.reopen).1
      = (step failed_world (Event.install_appsrc 7)).1 ∧
    ¬ transport_open failed_world := by
  refine ⟨?_, by decide, by decide, by decide, by decide, by decide, by decide, by decide,
    by decide⟩
  exact Reachable.step _ _ (Reachable.step _ _ (Reachable.opened 0 0) (by decide)) (by decide)

/-- C20: for a session whose state is neither Viewing nor Failed,
`screen_appsrc_destroy` returns the session unchanged and makes no call; for a
session whose state is neither Sending nor Failed, `screen_appsink_destroy`
does the same.  For a session in state Connecting with no websocket, an
adapter installed and then destroyed is still bound, and when the handshake
succeeds the session enters Viewing (for a source) or Sending (for a sink)
with that adapter bound. -/
theorem destroy_ignored_outside_role (s1 s2 s3 : ChimeCallScreen) (appsrc appsink ws : Nat)
    (h1v : s1.state ≠ ChimeScreenState.VIEWING) (h1f : s1.state ≠ ChimeScreenState.FAILED)
    (h2s : s2.state ≠ ChimeScreenState.SENDING) (h2f : s2.state ≠ ChimeScreenState.FAILED)
    (h3 : s3.state = ChimeScreenState.CONNECTING) (h3w : s3.ws = none) :
    screen_appsrc_destroy s1 = (s1, []) ∧
    screen_appsink_destroy s2 = (s2, []) ∧
    screen_appsrc_destroy (chime_call_screen_install_appsrc s3 appsrc).1
      = ((chime_call_screen_install_appsrc s3 appsrc).1, []) ∧
    (chime_call_screen_install_appsrc s3 appsrc).1.screen_src = some appsrc ∧
    (screen_ws_connect_cb
        (screen_appsrc_destroy (chime_call_screen_install_appsrc s3 appsrc).1).1
        (ConnectResult.ok ws)).1.state = ChimeScreenState.VIEWING ∧
    (screen_ws_connect_cb
        (screen_appsrc_destroy (chime_call_screen_install_appsrc s3 appsrc).1).1
        (ConnectResult.ok ws)).1.screen_src = some appsrc ∧
    screen_appsink_destroy (chime_call_screen_install_appsink s3 appsink).1
      = ((chime_call_screen_install_appsink s3 appsink).1, []) ∧
    (chime_call_screen_install_appsink s3 appsink).1.screen_sink = some appsink ∧
    (screen_ws_connect_cb
        (screen_appsink_destroy (chime_call_screen_install_appsink s3 appsink).1).1
        (ConnectResult.ok ws)).1.state = ChimeScreenState.SENDING ∧
    (screen_ws_connect_cb
        (screen_appsink_destroy (chime_call_screen_install_appsink s3 appsink).1).1
        (ConnectResult.ok ws)).1.screen_sink = some appsink := by
  obtain ⟨c3, n3, w3, st3, src3, sink3, nd3, vp3⟩ := s3
  simp only at h3 h3w
  subst h3 h3w
  refine ⟨?_, ?_, ?_, ?_, ?_, ?_, ?_, ?_, ?_, ?_⟩
  · simp [screen_appsrc_destroy, h1v, h1f]
  · simp [screen_appsink_destroy, h2s, h2f]
  all_goals
    cases src3 <;> cases sink3 <;>
      simp [screen_ws_connect_cb, screen_appsrc_destroy, screen_appsink_destroy,
        chime_call_screen_install_appsrc, chime_call_screen_install_appsink,
        chime_call_screen_set_state, clear_screen_sink, clear_screen_src]

/-- C20, at a presenting, a viewing and a connecting session. -/
theorem destroy_ignored_outside_role_witness :
    screen_appsrc_destroy sending_session = (sending_session, []) ∧
    screen_appsink_destroy viewing_session = (viewing_session, []) ∧
    (screen_ws_connect_cb
        (screen_appsrc_destroy (chime_call_screen_install_appsrc connecting_session 7).1).1
        (ConnectResult.ok 1)).1.state = ChimeScreenState.VIEWING ∧
    (screen_ws_connect_cb
        (screen_appsink_destroy (chime_call_screen_install_appsink connecting_session 9).1).1
        (ConnectResult.ok 1)).1.state = ChimeScreenState.SENDING :=
  ⟨(destroy_ignored_outside_role sending_session viewing_session connecting_session 7 9 1
      (by decide) (by decide) (by decide) (by decide) rfl rfl).1,
   (destroy_ignored_outside_role sending_session viewing_session connecting_session 7 9 1
      (by decide) (by decide) (by decide) (by decide) rfl rfl).2.1,
   (destroy_ignored_outside_role sending_session viewing_session connecting_session 7 9 1
      (by decide) (by decide) (by decide) (by decide) rfl rfl).2.2.2.2.1,
   (destroy_ignored_outside_role sending_session viewing_session connecting_session 7 9 1
      (by decide) (by decide) (by decide) (by decide) rfl rfl).2.2.2.2.2.2.2.2.1⟩

end ChimeScreen
